import Mathlib

/-!
Shallow embedding of the nextrade server (Express + Mongoose, single file):
user signup/login, wholesaler-owned product catalog, orders, and a payment
gateway adapter.  Document stores are lists of records; a route handler is a
function from caller identity, request body and store to a response and the
new store.
-/

namespace NexTrade

/-- The caller identity decoded from a verified token: `{ id, role }`
(what `authMiddleware` puts in `req.user`). -/
structure Auth where
  id : Nat
  role : String
  deriving Repr, DecidableEq

/-- A generic JSON route response: HTTP status, the `success` flag, and the
optional `message` string. -/
structure Response where
  status : Nat
  success : Bool
  message : Option String
  deriving Repr, DecidableEq

/-- `bcrypt.hash` modelled as a tagged one-way encoding: the claims only use
that comparing a candidate secret against a stored hash succeeds exactly for
the original secret. -/
def bcryptHash (s : String) : String := "bcrypt:" ++ s

/-- `bcrypt.compare(plain, hashed)`. -/
def bcryptCompare (plain hashed : String) : Bool := bcryptHash plain == hashed

/-- A stored `User` document (`userSchema`); `password` holds the bcrypt hash
written by the pre-save hook. -/
structure User where
  id : Nat
  name : String
  email : String
  password : String
  role : String
  businessName : String
  gstNumber : String
  shopName : String
  shopAddress : String
  deriving Repr, DecidableEq

/-- `this.toObject()`: the raw document as a key/value list, password
included. -/
def User.toObject (u : User) : List (String × String) :=
  [("name", u.name), ("email", u.email), ("password", u.password),
   ("role", u.role), ("businessName", u.businessName),
   ("gstNumber", u.gstNumber), ("shopName", u.shopName),
   ("shopAddress", u.shopAddress)]

/-- `userSchema.methods.toJSON`: `toObject()` followed by
`delete user.password`. -/
def User.toJSON (u : User) : List (String × String) :=
  u.toObject.filter (fun kv => kv.1 != "password")

/-- A signup request body (`req.body` of `POST /api/signup`). -/
structure SignupBody where
  name : String
  email : String
  password : String
  role : String
  businessName : String := ""
  gstNumber : String := ""
  shopName : String := ""
  shopAddress : String := ""
  deriving Repr, DecidableEq

/-- `router.post('/signup')`: `new User(req.body); await user.save()`.
The unique index on `email` makes `save` throw on a duplicate email, which
surfaces as `400 {success:false, message}`; otherwise the pre-save hook
hashes the password and the route answers `201` with the user serialized
through `toJSON`.  Returns (response, serialized user payload, new store). -/
def signup (newId : Nat) (body : SignupBody) (store : List User) :
    Response × Option (List (String × String)) × List User :=
  if store.any (fun u => u.email == body.email) then
    (⟨400, false, some "E11000 duplicate key error"⟩, none, store)
  else
    let u : User :=
      { id := newId, name := body.name, email := body.email,
        password := bcryptHash body.password, role := body.role,
        businessName := body.businessName, gstNumber := body.gstNumber,
        shopName := body.shopName, shopAddress := body.shopAddress }
    (⟨201, true, some "Account created"⟩, some u.toJSON, store ++ [u])

/-- `router.post('/login')`: look the user up by email; if none, or if the
bcrypt comparison fails, answer `401 "Invalid credentials"`; on success
answer `200` with the user serialized through `toJSON`. -/
def login (email password : String) (store : List User) :
    Response × Option (List (String × String)) :=
  match store.find? (fun u => u.email == email) with
  | none => (⟨401, false, some "Invalid credentials"⟩, none)
  | some u =>
      if bcryptCompare password u.password then
        (⟨200, true, none⟩, some u.toJSON)
      else
        (⟨401, false, some "Invalid credentials"⟩, none)

/-- `router.get('/wholesalers')`: all users with `role = 'wholesaler'`,
serialized with the `{ password: 0 }` projection. -/
def findWholesalers (store : List User) : List (List (String × String)) :=
  (store.filter (fun u => u.role == "wholesaler")).map
    (fun u => u.toObject.filter (fun kv => kv.1 != "password"))

/-- A stored `Product` document (`productSchema`, with the `createdAt`
timestamp added by `{ timestamps: true }`). -/
structure Product where
  id : Nat
  name : String
  price : Int
  category : String
  image : String
  wholesalerId : Nat
  createdAt : Nat
  deriving Repr, DecidableEq

/-- A product request body (`req.body` of `POST`/`PUT /api/products`); a
field absent from the JSON payload is `none`. -/
structure ProductBody where
  name : Option String := none
  price : Option Int := none
  category : Option String := none
  image : Option String := none
  wholesalerId : Option Nat := none
  deriving Repr, DecidableEq

/-- `router.post('/products')`: reject non-wholesalers with 403; otherwise
store `new Product({ ...req.body, wholesalerId: req.user.id })` — the spread
puts `wholesalerId := caller id` last, so it wins over any value in the
body. -/
def createProduct (auth : Auth) (body : ProductBody) (newId now : Nat)
    (store : List Product) : Response × List Product :=
  if auth.role != "wholesaler" then
    (⟨403, false, some "Only wholesalers can add products"⟩, store)
  else
    let p : Product :=
      { id := newId, name := body.name.getD "", price := body.price.getD 0,
        category := body.category.getD "", image := body.image.getD "",
        wholesalerId := auth.id, createdAt := now }
    (⟨201, true, none⟩, store ++ [p])

/-- Mongoose `findOneAndUpdate(filter, req.body)` treats the plain body as a
`$set`: every field present in the body replaces the stored one. -/
def setFields (body : ProductBody) (p : Product) : Product :=
  { p with
    name := body.name.getD p.name,
    price := body.price.getD p.price,
    category := body.category.getD p.category,
    image := body.image.getD p.image,
    wholesalerId := body.wholesalerId.getD p.wholesalerId }

/-- The filter of the update/delete routes:
`{ _id: req.params.id, wholesalerId: req.user.id }`. -/
def ownedBy (auth : Auth) (pid : Nat) (p : Product) : Bool :=
  p.id == pid && p.wholesalerId == auth.id

/-- `router.put('/products/:id')`:
`findOneAndUpdate({_id, wholesalerId: caller}, req.body)`; when no document
matches, answer `403 {success:false}` and leave the store alone. -/
def updateProduct (auth : Auth) (pid : Nat) (body : ProductBody)
    (store : List Product) : Response × List Product :=
  match store.find? (ownedBy auth pid) with
  | none => (⟨403, false, none⟩, store)
  | some _ =>
      (⟨200, true, none⟩,
       store.map (fun p => if ownedBy auth pid p then setFields body p else p))

/-- `router.delete('/products/:id')`: `findOne({_id, wholesalerId: caller})`;
when no document matches, answer `403 "Not allowed"`; otherwise delete it. -/
def deleteProduct (auth : Auth) (pid : Nat) (store : List Product) :
    Response × List Product :=
  match store.find? (ownedBy auth pid) with
  | none => (⟨403, false, some "Not allowed"⟩, store)
  | some _ =>
      (⟨200, true, none⟩, store.filter (fun p => !(ownedBy auth pid p)))

/-- Case-insensitive character comparison (the regex `'i'` flag). -/
def ciEq (a b : Char) : Bool := a.toLower == b.toLower

/-- Matching a pattern against the start of a text, `'.'` as the any-char
wildcard: the fragment of `new RegExp(search, 'i')` reachable from search
strings made of `'.'` and ordinary (non-metacharacter) characters. -/
def regexMatchHere : List Char → List Char → Bool
  | [], _ => true
  | _ :: _, [] => false
  | p :: ps, c :: cs => (p == '.' || ciEq p c) && regexMatchHere ps cs

/-- `regex.test(text)`: a match may start at any position of the text. -/
def regexTest (pat : List Char) : List Char → Bool
  | [] => regexMatchHere pat []
  | c :: cs => regexMatchHere pat (c :: cs) || regexTest pat cs

/-- Case-insensitive "pattern is a literal prefix of the text". -/
def ciStartsWith : List Char → List Char → Bool
  | [], _ => true
  | _ :: _, [] => false
  | p :: ps, c :: cs => ciEq p c && ciStartsWith ps cs

/-- Case-insensitive substring containment: the spec's notion of a search
match. -/
def ciContains (pat : List Char) : List Char → Bool
  | [] => ciStartsWith pat []
  | c :: cs => ciStartsWith pat (c :: cs) || ciContains pat cs

/-- The `$or` filter of `GET /api/products?search=`: the regex tested
against `name` or against `category`. -/
def productMatches (search : String) (p : Product) : Bool :=
  regexTest search.toList p.name.toList || regexTest search.toList p.category.toList

/-- The `.sort({ createdAt: -1 })` order: newest first. -/
def newerFirst (a b : Product) : Prop := b.createdAt ≤ a.createdAt

instance : DecidableRel newerFirst :=
  fun a b => inferInstanceAs (Decidable (b.createdAt ≤ a.createdAt))

instance : IsTotal Product newerFirst :=
  ⟨fun a b => le_total b.createdAt a.createdAt⟩

instance : IsTrans Product newerFirst :=
  ⟨fun _ _ _ h1 h2 => le_trans h2 h1⟩

/-- `router.get('/products')`: filter by the search regex, newest first. -/
def searchProducts (search : String) (store : List Product) : List Product :=
  List.insertionSort newerFirst (store.filter (productMatches search))

/-- Modelled from the spec: a search match is a case-insensitive SUBSTRING
of the name or the category (spec §4.3, "case-insensitive substring match on
name OR category"); to be compared against `productMatches`. -/
def specProductMatches (search : String) (p : Product) : Bool :=
  ciContains search.toList p.name.toList || ciContains search.toList p.category.toList

/-- Modelled from the spec: the products whose name or category contains the
search string case-insensitively, newest first. -/
def searchSpec (search : String) (store : List Product) : List Product :=
  List.insertionSort newerFirst (store.filter (specProductMatches search))

/-- A stored `Order` document (`orderSchema`). -/
structure Order where
  productName : String
  price : Int
  quantity : Nat
  address : String
  paymentMethod : String
  paymentStatus : String
  razorpayOrderId : String
  razorpayPaymentId : String
  customerName : String
  email : String
  phone : String
  status : String
  deriving Repr, DecidableEq

/-- An order request body (`req.body` of `POST /api/orders`); a field absent
from the JSON payload is `none`. -/
structure OrderBody where
  productName : Option String := none
  price : Option Int := none
  quantity : Option Nat := none
  address : Option String := none
  paymentMethod : Option String := none
  paymentStatus : Option String := none
  razorpayOrderId : Option String := none
  razorpayPaymentId : Option String := none
  customerName : Option String := none
  email : Option String := none
  phone : Option String := none
  status : Option String := none
  deriving Repr, DecidableEq

/-- `new Order(req.body)`: schema defaults `paymentStatus: 'Pending'` and
`status: 'Processing'` apply exactly when the body omits the field. -/
def mkOrder (body : OrderBody) : Order :=
  { productName := body.productName.getD "", price := body.price.getD 0,
    quantity := body.quantity.getD 0, address := body.address.getD "",
    paymentMethod := body.paymentMethod.getD "",
    paymentStatus := body.paymentStatus.getD "Pending",
    razorpayOrderId := body.razorpayOrderId.getD "",
    razorpayPaymentId := body.razorpayPaymentId.getD "",
    customerName := body.customerName.getD "", email := body.email.getD "",
    phone := body.phone.getD "", status := body.status.getD "Processing" }

/-- `router.post('/orders')`: no auth middleware — the (possibly absent)
caller identity is never consulted; always save and answer 201. -/
def createOrder (auth : Option Auth) (body : OrderBody) (store : List Order) :
    Response × List Order :=
  (⟨201, true, none⟩, store ++ [mkOrder body])

/-- JavaScript `Math.round`: round half toward positive infinity. -/
def mathRound (q : ℚ) : ℤ := ⌊q + 1 / 2⌋

/-- What `app.post('/api/create-order')` forwards to `razorpay.orders.create`. -/
structure ChargeOrder where
  amount : ℤ
  currency : String
  receipt : String
  deriving Repr, DecidableEq

/-- `app.post('/api/create-order')`: forwards `Math.round(req.body.amount)`,
the fixed currency `'INR'`, and the receipt generated from the call time,
`receipt_${Date.now()}`. -/
def createChargeOrder (amount : ℚ) (now : Nat) : ChargeOrder :=
  { amount := mathRound amount, currency := "INR",
    receipt := "receipt_" ++ toString now }

/-! ### Helper lemmas -/

/-- Entries surviving the password-stripping filter do not have key
`"password"`. -/
theorem filter_password_all (l : List (String × String)) :
    (l.filter (fun kv => kv.1 != "password")).all
      (fun kv => kv.1 != "password") = true := by
  apply List.all_eq_true.mpr
  intro kv hkv
  exact (List.mem_filter.mp hkv).2

/-- A `$set` whose body has no `wholesalerId` field keeps the owner. -/
theorem setFields_wholesalerId (body : ProductBody) (p : Product)
    (h : body.wholesalerId = none) :
    (setFields body p).wholesalerId = p.wholesalerId := by
  simp [setFields, h]

/-! ### Claims -/

/-- C1 as stated is false: the update route hands the raw request body to
`findOneAndUpdate`, so the owning wholesaler (id 7) updating their own
product with a body containing `wholesalerId: 9` changes the owner to 9. -/
theorem C1_cex_owner_mutable_by_update :
    ((updateProduct ⟨7, "wholesaler"⟩ 1 { wholesalerId := some 9 }
        [{ id := 1, name := "Widget", price := 10, category := "tools",
           image := "", wholesalerId := 7, createdAt := 0 }]).2.map
      Product.wholesalerId) = [9] ∧ (9 : Nat) ≠ 7 := by
  decide

/-- C1 (amended): at creation the owner is set to the caller's id regardless
of any owner value in the create payload; and an update leaves every
product's owner unchanged provided the update payload itself contains no
`wholesalerId` field. -/
theorem C1_owner_assignment (auth : Auth) (body bodyU : ProductBody)
    (newId now pid : Nat) (store : List Product)
    (hrole : auth.role = "wholesaler") (hbody : bodyU.wholesalerId = none) :
    ((createProduct auth body newId now store).2.map Product.wholesalerId
      = store.map Product.wholesalerId ++ [auth.id]) ∧
    ((updateProduct auth pid bodyU store).2.map Product.wholesalerId
      = store.map Product.wholesalerId) := by
  constructor
  · simp [createProduct, hrole]
  · cases hfind : store.find? (ownedBy auth pid) with
    | none => simp [updateProduct, hfind]
    | some q =>
        simp only [updateProduct, hfind, List.map_map]
        apply List.map_congr_left
        intro p hp
        by_cases hc : ownedBy auth pid p
        · simp [hc, setFields_wholesalerId bodyU p hbody]
        · simp [hc]

/-- Witness for the amended C1 at a concrete creation and update. -/
theorem C1_owner_assignment_witness :
    (("wholesaler" : String) = "wholesaler" ∧
      (({ wholesalerId := none } : ProductBody).wholesalerId = none)) ∧
    ((createProduct ⟨7, "wholesaler"⟩ { name := some "Widget", wholesalerId := some 9 }
        2 0 [{ id := 1, name := "Widget", price := 10, category := "tools",
               image := "", wholesalerId := 7, createdAt := 0 }]).2.map
      Product.wholesalerId
      = [{ id := 1, name := "Widget", price := 10, category := "tools",
           image := "", wholesalerId := 7, createdAt := 0 }].map
          Product.wholesalerId ++ [7]) ∧
    ((updateProduct ⟨7, "wholesaler"⟩ 1 { wholesalerId := none }
        [{ id := 1, name := "Widget", price := 10, category := "tools",
           image := "", wholesalerId := 7, createdAt := 0 }]).2.map
      Product.wholesalerId
      = [{ id := 1, name := "Widget", price := 10, category := "tools",
           image := "", wholesalerId := 7, createdAt := 0 }].map
          Product.wholesalerId) :=
  ⟨⟨rfl, rfl⟩,
   C1_owner_assignment ⟨7, "wholesaler"⟩
     { name := some "Widget", wholesalerId := some 9 } { wholesalerId := none }
     2 0 1 _ rfl rfl⟩

/-- C2: an update or delete on a product id that does not exist in the store,
or exists with a different owner than the caller, yields a constant 403
response (the same whichever of the two cases holds — never a 404), and the
store is unchanged. -/
theorem C2_nonowned_update_delete_forbidden (auth : Auth) (pid : Nat)
    (body : ProductBody) (store : List Product)
    (h : ∀ p ∈ store, p.id = pid → p.wholesalerId ≠ auth.id) :
    (updateProduct auth pid body store).1 = ⟨403, false, none⟩ ∧
    (updateProduct auth pid body store).2 = store ∧
    (deleteProduct auth pid store).1 = ⟨403, false, some "Not allowed"⟩ ∧
    (deleteProduct auth pid store).2 = store := by
  have hfind : store.find? (ownedBy auth pid) = none := by
    apply List.find?_eq_none.mpr
    intro p hp
    simp only [ownedBy, Bool.and_eq_true, beq_iff_eq, not_and]
    exact h p hp
  simp [updateProduct, deleteProduct, hfind]

/-- Witness for C2: caller 5 against a store whose only product (id 1) is
owned by 7. -/
theorem C2_nonowned_update_delete_forbidden_witness :
    (∀ p ∈ [({ id := 1, name := "Widget", price := 10, category := "tools",
               image := "", wholesalerId := 7, createdAt := 0 } : Product)],
        p.id = 1 → p.wholesalerId ≠ 5) ∧
    ((updateProduct ⟨5, "wholesaler"⟩ 1 { price := some 99 }
        [{ id := 1, name := "Widget", price := 10, category := "tools",
           image := "", wholesalerId := 7, createdAt := 0 }]).1
      = ⟨403, false, none⟩ ∧
     (updateProduct ⟨5, "wholesaler"⟩ 1 { price := some 99 }
        [{ id := 1, name := "Widget", price := 10, category := "tools",
           image := "", wholesalerId := 7, createdAt := 0 }]).2
      = [{ id := 1, name := "Widget", price := 10, category := "tools",
           image := "", wholesalerId := 7, createdAt := 0 }] ∧
     (deleteProduct ⟨5, "wholesaler"⟩ 1
        [{ id := 1, name := "Widget", price := 10, category := "tools",
           image := "", wholesalerId := 7, createdAt := 0 }]).1
      = ⟨403, false, some "Not allowed"⟩ ∧
     (deleteProduct ⟨5, "wholesaler"⟩ 1
        [{ id := 1, name := "Widget", price := 10, category := "tools",
           image := "", wholesalerId := 7, createdAt := 0 }]).2
      = [{ id := 1, name := "Widget", price := 10, category := "tools",
           image := "", wholesalerId := 7, createdAt := 0 }]) :=
  ⟨by decide,
   C2_nonowned_update_delete_forbidden ⟨5, "wholesaler"⟩ 1 { price := some 99 }
     _ (by decide)⟩

/-- C6: a caller whose role is not `wholesaler` gets 403 from product
creation and the catalog is unchanged. -/
theorem C6_non_wholesaler_create_forbidden (auth : Auth) (body : ProductBody)
    (newId now : Nat) (store : List Product) (h : auth.role ≠ "wholesaler") :
    (createProduct auth body newId now store).1
      = ⟨403, false, some "Only wholesalers can add products"⟩ ∧
    (createProduct auth body newId now store).2 = store := by
  simp [createProduct, h]

/-- Witness for C6 with a retailer caller. -/
theorem C6_non_wholesaler_create_forbidden_witness :
    (("retailer" : String) ≠ "wholesaler") ∧
    ((createProduct ⟨3, "retailer"⟩ { name := some "Widget" } 1 0 []).1
      = ⟨403, false, some "Only wholesalers can add products"⟩ ∧
     (createProduct ⟨3, "retailer"⟩ { name := some "Widget" } 1 0 []).2 = []) :=
  ⟨by decide,
   C6_non_wholesaler_create_forbidden ⟨3, "retailer"⟩ { name := some "Widget" }
     1 0 [] (by decide)⟩

/-- C7: a signup whose email is already stored answers
`400 {success:false, message}` and leaves the user store unchanged. -/
theorem C7_duplicate_email_rejected (newId : Nat) (body : SignupBody)
    (store : List User) (h : ∃ u ∈ store, u.email = body.email) :
    (signup newId body store).1
      = ⟨400, false, some "E11000 duplicate key error"⟩ ∧
    (signup newId body store).2.2 = store := by
  obtain ⟨u, hu, he⟩ := h
  have hany : store.any (fun u => u.email == body.email) = true :=
    List.any_eq_true.mpr ⟨u, hu, by simp [he]⟩
  simp [signup, hany]

/-- Witness for C7: re-signing up with an already-used email. -/
theorem C7_duplicate_email_rejected_witness :
    (∃ u ∈ [({ id := 1, name := "A", email := "a@x.com", password := "h",
               role := "wholesaler", businessName := "", gstNumber := "",
               shopName := "", shopAddress := "" } : User)],
        u.email = ({ name := "B", email := "a@x.com", password := "q",
                     role := "retailer" } : SignupBody).email) ∧
    ((signup 2 { name := "B", email := "a@x.com", password := "q",
                 role := "retailer" }
        [{ id := 1, name := "A", email := "a@x.com", password := "h",
           role := "wholesaler", businessName := "", gstNumber := "",
           shopName := "", shopAddress := "" }]).1
      = ⟨400, false, some "E11000 duplicate key error"⟩ ∧
     (signup 2 { name := "B", email := "a@x.com", password := "q",
                 role := "retailer" }
        [{ id := 1, name := "A", email := "a@x.com", password := "h",
           role := "wholesaler", businessName := "", gstNumber := "",
           shopName := "", shopAddress := "" }]).2.2
      = [{ id := 1, name := "A", email := "a@x.com", password := "h",
           role := "wholesaler", businessName := "", gstNumber := "",
           shopName := "", shopAddress := "" }]) :=
  ⟨by decide,
   C7_duplicate_email_rejected 2
     { name := "B", email := "a@x.com", password := "q", role := "retailer" }
     _ (by decide)⟩

/-- C8: order creation has no auth middleware, so any caller — including an
anonymous one — gets 201; a body omitting the two status fields yields a
stored order with `paymentStatus = "Pending"` and `status = "Processing"`. -/
theorem C8_order_defaults (auth : Option Auth) (body : OrderBody)
    (store : List Order)
    (hp : body.paymentStatus = none) (hs : body.status = none) :
    (createOrder auth body store).1.status = 201 ∧
    (createOrder auth body store).2 = store ++ [mkOrder body] ∧
    (mkOrder body).paymentStatus = "Pending" ∧
    (mkOrder body).status = "Processing" := by
  refine ⟨rfl, rfl, ?_, ?_⟩ <;> simp [mkOrder, hp, hs]

/-- Witness for C8: the spec's scenario, placed anonymously. -/
theorem C8_order_defaults_witness :
    (({ productName := some "Widget", price := some 10,
        quantity := some 2 } : OrderBody).paymentStatus = none ∧
     ({ productName := some "Widget", price := some 10,
        quantity := some 2 } : OrderBody).status = none) ∧
    ((createOrder none { productName := some "Widget", price := some 10,
                         quantity := some 2 } []).1.status = 201 ∧
     (createOrder none { productName := some "Widget", price := some 10,
                         quantity := some 2 } []).2
       = [] ++ [mkOrder { productName := some "Widget", price := some 10,
                          quantity := some 2 }] ∧
     (mkOrder { productName := some "Widget", price := some 10,
                quantity := some 2 }).paymentStatus = "Pending" ∧
     (mkOrder { productName := some "Widget", price := some 10,
                quantity := some 2 }).status = "Processing") :=
  ⟨⟨rfl, rfl⟩,
   C8_order_defaults none
     { productName := some "Widget", price := some 10, quantity := some 2 }
     [] rfl rfl⟩

/-- C10: when the order body does supply `paymentStatus` or `status`, the
stored order takes the supplied value instead of the default — for any
caller, the anonymous one included. -/
theorem C10_order_caller_supplied_status (auth : Option Auth)
    (body : OrderBody) (store : List Order) :
    (createOrder auth body store).1.status = 201 ∧
    (createOrder auth body store).2 = store ++ [mkOrder body] ∧
    (∀ v, body.paymentStatus = some v → (mkOrder body).paymentStatus = v) ∧
    (∀ v, body.status = some v → (mkOrder body).status = v) := by
  refine ⟨rfl, rfl, ?_, ?_⟩ <;> intro v hv <;> simp [mkOrder, hv]

/-- Witness for C10: an anonymous order created already marked Paid. -/
theorem C10_order_caller_supplied_status_witness :
    (createOrder none { productName := some "Widget",
                        paymentStatus := some "Paid" } []).2
      = [mkOrder { productName := some "Widget",
                   paymentStatus := some "Paid" }] ∧
    (mkOrder { productName := some "Widget",
               paymentStatus := some "Paid" }).paymentStatus = "Paid" :=
  ⟨(C10_order_caller_supplied_status none
      { productName := some "Widget", paymentStatus := some "Paid" } []).2.1,
   (C10_order_caller_supplied_status none
      { productName := some "Widget", paymentStatus := some "Paid" } []).2.2.1
     "Paid" rfl⟩

/-- C3: every externally serialized User — the signup response payload, the
login response payload, and each entry of the wholesaler listing — contains
no `password` key. -/
theorem C3_serialization_omits_password (newId : Nat) (body : SignupBody)
    (e pw : String) (store : List User) (su : List (String × String))
    (h : (signup newId body store).2.1 = some su ∨
         (login e pw store).2 = some su ∨
         su ∈ findWholesalers store) :
    su.all (fun kv => kv.1 != "password") = true := by
  rcases h with h | h | h
  · by_cases hc : store.any (fun u => u.email == body.email)
    · simp [signup, hc] at h
    · simp only [signup, hc, if_neg, Bool.false_eq_true, if_false,
        Option.some.injEq] at h
      rw [← h]
      exact filter_password_all _
  · cases hf : store.find? (fun u => u.email == e) with
    | none => simp [login, hf] at h
    | some u =>
        by_cases hb : bcryptCompare pw u.password
        · simp only [login, hf, hb, if_true, Option.some.injEq] at h
          rw [← h]
          exact filter_password_all _
        · simp [login, hf, hb] at h
  · obtain ⟨u, _, heq⟩ := List.mem_map.mp h
    rw [← heq]
    exact filter_password_all _

/-- Witness for C3 on the wholesaler listing of a one-user store. -/
theorem C3_serialization_omits_password_witness :
    ([(("name", "A") : String × String), ("email", "a@x.com"),
      ("role", "wholesaler"), ("businessName", ""), ("gstNumber", ""),
      ("shopName", ""), ("shopAddress", "")]
      ∈ findWholesalers
          [{ id := 1, name := "A", email := "a@x.com", password := "h",
             role := "wholesaler", businessName := "", gstNumber := "",
             shopName := "", shopAddress := "" }]) ∧
    ([(("name", "A") : String × String), ("email", "a@x.com"),
      ("role", "wholesaler"), ("businessName", ""), ("gstNumber", ""),
      ("shopName", ""), ("shopAddress", "")].all
      (fun kv => kv.1 != "password") = true) :=
  ⟨by decide,
   C3_serialization_omits_password 0
     { name := "", email := "", password := "", role := "" } "" ""
     [{ id := 1, name := "A", email := "a@x.com", password := "h",
        role := "wholesaler", businessName := "", gstNumber := "",
        shopName := "", shopAddress := "" }] _
     (Or.inr (Or.inr (by decide)))⟩

/-- C4: a login with an existing email but wrong secret and a login with an
unknown email return the very same response — status 401, success false,
message "Invalid credentials" — so the caller cannot tell which check
failed. -/
theorem C4_login_failures_indistinguishable (store : List User)
    (e1 pw1 e2 pw2 : String)
    (h1 : ∀ u ∈ store, u.email = e1 → bcryptCompare pw1 u.password = false)
    (h2 : ∀ u ∈ store, u.email ≠ e2) :
    (login e1 pw1 store).1 = ⟨401, false, some "Invalid credentials"⟩ ∧
    (login e2 pw2 store).1 = ⟨401, false, some "Invalid credentials"⟩ ∧
    (login e1 pw1 store).1 = (login e2 pw2 store).1 := by
  have hr1 : (login e1 pw1 store).1
      = ⟨401, false, some "Invalid credentials"⟩ := by
    cases hf : store.find? (fun u => u.email == e1) with
    | none => simp [login, hf]
    | some u =>
        have hmem := List.mem_of_find?_eq_some hf
        have heq : u.email = e1 := by simpa using List.find?_some hf
        simp [login, hf, h1 u hmem heq]
  have hr2 : (login e2 pw2 store).1
      = ⟨401, false, some "Invalid credentials"⟩ := by
    have hf : store.find? (fun u => u.email == e2) = none := by
      apply List.find?_eq_none.mpr
      intro u hu
      simpa using h2 u hu
    simp [login, hf]
  exact ⟨hr1, hr2, hr1.trans hr2.symm⟩

/-- Witness for C4: wrong secret for `a@x.com` versus unknown `b@x.com`. -/
theorem C4_login_failures_indistinguishable_witness :
    ((∀ u ∈ [({ id := 1, name := "A", email := "a@x.com",
                password := "bcrypt:pw", role := "wholesaler",
                businessName := "", gstNumber := "", shopName := "",
                shopAddress := "" } : User)],
        u.email = "a@x.com" → bcryptCompare "wrong" u.password = false) ∧
     (∀ u ∈ [({ id := 1, name := "A", email := "a@x.com",
                password := "bcrypt:pw", role := "wholesaler",
                businessName := "", gstNumber := "", shopName := "",
                shopAddress := "" } : User)],
        u.email ≠ "b@x.com")) ∧
    ((login "a@x.com" "wrong"
        [{ id := 1, name := "A", email := "a@x.com", password := "bcrypt:pw",
           role := "wholesaler", businessName := "", gstNumber := "",
           shopName := "", shopAddress := "" }]).1
      = ⟨401, false, some "Invalid credentials"⟩ ∧
     (login "b@x.com" "whatever"
        [{ id := 1, name := "A", email := "a@x.com", password := "bcrypt:pw",
           role := "wholesaler", businessName := "", gstNumber := "",
           shopName := "", shopAddress := "" }]).1
      = ⟨401, false, some "Invalid credentials"⟩ ∧
     (login "a@x.com" "wrong"
        [{ id := 1, name := "A", email := "a@x.com", password := "bcrypt:pw",
           role := "wholesaler", businessName := "", gstNumber := "",
           shopName := "", shopAddress := "" }]).1
      = (login "b@x.com" "whatever"
          [{ id := 1, name := "A", email := "a@x.com", password := "bcrypt:pw",
             role := "wholesaler", businessName := "", gstNumber := "",
             shopName := "", shopAddress := "" }]).1) :=
  ⟨⟨by decide, by decide⟩,
   C4_login_failures_indistinguishable _ "a@x.com" "wrong" "b@x.com" "whatever"
     (by decide) (by decide)⟩

/-- C9: the gateway call forwards `Math.round(amount)` — an integer within
1/2 of the requested amount, so a nearest integer — with the fixed currency
INR and the receipt generated from the call time; concretely 499.6 forwards
as 500. -/
theorem C9_charge_rounding (amount : ℚ) (now : Nat) :
    (createChargeOrder amount now).amount = mathRound amount ∧
    |(mathRound amount : ℚ) - amount| ≤ 1 / 2 ∧
    (createChargeOrder amount now).currency = "INR" ∧
    (createChargeOrder amount now).receipt = "receipt_" ++ toString now ∧
    (createChargeOrder (4996 / 10) 0).amount = 500 := by
  refine ⟨rfl, ?_, rfl, rfl, ?_⟩
  · rw [abs_le]
    have h1 : (amount + 1 / 2) - 1 < ((⌊amount + 1 / 2⌋ : ℤ) : ℚ) :=
      Int.sub_one_lt_floor _
    have h2 : ((⌊amount + 1 / 2⌋ : ℤ) : ℚ) ≤ amount + 1 / 2 :=
      Int.floor_le _
    constructor <;> simp only [mathRound] <;> linarith
  · norm_num [createChargeOrder, mathRound, Int.floor_eq_iff]

/-- On a pattern without the wildcard, matching at the start of the text is
literal case-insensitive prefix comparison. -/
theorem regexMatchHere_eq_ciStartsWith (pat : List Char)
    (h : ('.' : Char) ∉ pat) :
    ∀ t, regexMatchHere pat t = ciStartsWith pat t := by
  induction pat with
  | nil => intro t; cases t <;> rfl
  | cons p ps ih =>
      intro t
      cases t with
      | nil => rfl
      | cons c cs =>
          have hp : (p == '.') = false := by
            simp only [beq_eq_false_iff_ne, ne_eq]
            intro hpe
            exact h (hpe ▸ List.mem_cons_self p ps)
          have hps : ('.' : Char) ∉ ps := fun hm => h (List.mem_cons_of_mem p hm)
          simp [regexMatchHere, ciStartsWith, hp, ih hps cs]

/-- On a pattern without the wildcard, the regex test is case-insensitive
substring containment. -/
theorem regexTest_eq_ciContains (pat : List Char) (h : ('.' : Char) ∉ pat) :
    ∀ t, regexTest pat t = ciContains pat t := by
  intro t
  induction t with
  | nil =>
      simp [regexTest, ciContains, regexMatchHere_eq_ciStartsWith pat h]
  | cons c cs ih =>
      simp [regexTest, ciContains, regexMatchHere_eq_ciStartsWith pat h, ih]

/-- C5 as stated is false: the search string is interpreted as a regular
expression, not a literal substring — searching for "." returns the product
named "ab" even though neither its name nor its category contains "." as a
substring. -/
theorem C5_cex_regex_not_substring :
    searchProducts "."
      [{ id := 1, name := "ab", price := 1, category := "x", image := "",
         wholesalerId := 7, createdAt := 0 }]
      = [{ id := 1, name := "ab", price := 1, category := "x", image := "",
           wholesalerId := 7, createdAt := 0 }] ∧
    specProductMatches "."
      { id := 1, name := "ab", price := 1, category := "x", image := "",
        wholesalerId := 7, createdAt := 0 } = false := by
  decide

/-- C5 (amended): for a search string free of regex metacharacters (in the
modelled fragment, free of the `'.'` wildcard), the route returns exactly
the products whose name or category contains the search string as a
case-insensitive substring, ordered newest-first. -/
theorem C5_search_substring_newest_first (search : String)
    (store : List Product) (hdot : ('.' : Char) ∉ search.toList) :
    searchProducts search store = searchSpec search store ∧
    List.Sorted newerFirst (searchProducts search store) ∧
    (searchProducts search store).Perm
      (store.filter (specProductMatches search)) := by
  have hfilter : store.filter (productMatches search)
      = store.filter (specProductMatches search) := by
    apply List.filter_congr
    intro p _
    simp only [productMatches, specProductMatches]
    rw [regexTest_eq_ciContains _ hdot, regexTest_eq_ciContains _ hdot]
  refine ⟨?_, ?_, ?_⟩
  · simp [searchProducts, searchSpec, hfilter]
  · exact List.sorted_insertionSort newerFirst _
  · rw [searchProducts, hfilter]
    exact List.perm_insertionSort _ _

/-- Witness for the amended C5: a metacharacter-free, case-insensitive
search over a two-product store. -/
theorem C5_search_substring_newest_first_witness :
    (('.' : Char) ∉ ("WID" : String).toList) ∧
    (searchProducts "WID"
        [{ id := 1, name := "Widget", price := 10, category := "tools",
           image := "", wholesalerId := 7, createdAt := 1 },
         { id := 2, name := "widgetPro", price := 20, category := "tools",
           image := "", wholesalerId := 7, createdAt := 5 }]
      = searchSpec "WID"
          [{ id := 1, name := "Widget", price := 10, category := "tools",
             image := "", wholesalerId := 7, createdAt := 1 },
           { id := 2, name := "widgetPro", price := 20, category := "tools",
             image := "", wholesalerId := 7, createdAt := 5 }] ∧
     List.Sorted newerFirst
       (searchProducts "WID"
         [{ id := 1, name := "Widget", price := 10, category := "tools",
            image := "", wholesalerId := 7, createdAt := 1 },
          { id := 2, name := "widgetPro", price := 20, category := "tools",
            image := "", wholesalerId := 7, createdAt := 5 }]) ∧
     (searchProducts "WID"
         [{ id := 1, name := "Widget", price := 10, category := "tools",
            image := "", wholesalerId := 7, createdAt := 1 },
          { id := 2, name := "widgetPro", price := 20, category := "tools",
            image := "", wholesalerId := 7, createdAt := 5 }]).Perm
       ([{ id := 1, name := "Widget", price := 10, category := "tools",
           image := "", wholesalerId := 7, createdAt := 1 },
         { id := 2, name := "widgetPro", price := 20, category := "tools",
           image := "", wholesalerId := 7, createdAt := 5 }].filter
         (specProductMatches "WID"))) :=
  ⟨by decide,
   C5_search_substring_newest_first "WID"
     [{ id := 1, name := "Widget", price := 10, category := "tools",
        image := "", wholesalerId := 7, createdAt := 1 },
      { id := 2, name := "widgetPro", price := 20, category := "tools",
        image := "", wholesalerId := 7, createdAt := 5 }]
     (by decide)⟩

end NexTrade
